import Mathlib

/-!
# venus-market: wiring of the piece store and of the market client

A shallow embedding of `piece/modules.go` and `client/modules.go`.

Conventions of the embedding:

* a Go pair `(T, error)` is kept as a pair of options (`none` is `nil`), because
  the callers only ever test `err != nil`;
* collaborators that live outside the two files (the operating system, the
  data-transfer and market libraries, the journal) are arguments of the
  embedded functions: fallible ones are given by their outcome, objects they
  build are records of the arguments they were built from;
* the calls a constructor makes with a directory, and the calls a journaler
  makes on the journal, are returned as a list, so that what was called, with
  which arguments and how often can be stated.
-/

set_option autoImplicit false

namespace VenusMarket

/-! ## Go errors -/

/-- A Go `error` value. `foreign` stands for an error made by a collaborator
(with its text and with what `os.IsExist` answers for it), `errorf` for
`xerrors.Errorf` without `%w`, `wrapf` for `xerrors.Errorf` ending in `%w`. -/
inductive GoError where
  | foreign (msg : String) (alreadyExists : Bool)
  | errorf (msg : String)
  | wrapf (msg : String) (inner : GoError)
deriving DecidableEq, Repr

namespace GoError

/-- The text of `err.Error()`. -/
def Error : GoError → String
  | foreign msg _ => msg
  | errorf msg => msg
  | wrapf msg _ => msg

/-- The error one step down the chain, `errors.Unwrap`. -/
def Unwrap : GoError → Option GoError
  | wrapf _ inner => some inner
  | _ => none

/-- The answer of `os.IsExist`: it looks at the error itself, not through an
`xerrors` wrapper. -/
def IsExist : GoError → Bool
  | foreign _ b => b
  | _ => false

end GoError

/-! ## config -/

namespace config

/-- The two fields of `config.PieceStorage` read by `NewPieceStorage`
(`Type` is a reserved word, hence the underscore). -/
structure PieceStorage where
  Type_ : String
  Path : String
deriving DecidableEq, Repr

end config

/-! ## fx lifecycle -/

/-- What a hook closure does when it runs, one entry per statement. -/
inductive HookAction where
  | Start (component : String)
  | Stop (component : String)
  | SubscribeToEvents (component subscriber : String)
  | RegisterEventType (system event : String)
deriving DecidableEq, Repr

/-- An `fx.Hook`: `none` for a callback the literal leaves out. -/
structure Hook where
  OnStart : Option (List HookAction)
  OnStop : Option (List HookAction)
deriving DecidableEq, Repr

/-- The `fx.Lifecycle`: the hooks registered so far, oldest first. -/
structure Lifecycle where
  hooks : List Hook
deriving DecidableEq, Repr

/-- The method `lc.Append`. -/
def Lifecycle.Append (lc : Lifecycle) (hook : Hook) : Lifecycle :=
  ⟨lc.hooks ++ [hook]⟩

/-! ## The metadata datastore -/

namespace datastore

/-- A datastore key, the string it holds. -/
structure Key where
  string : String
deriving DecidableEq, Repr

/-- Stored values are byte strings. -/
abbrev Value := List (Fin 256)

/-- Modelled from the spec: `datastore.NewKey` belongs to the go-datastore
package, outside the repository. The key of a string is that string; the one
argument it gets in `piece/modules.go`, `/storagemarket`, is the "fixed key
prefix" of the spec. -/
def NewKey (s : String) : Key := ⟨s⟩

/-- Modelled from the spec: the key "scoped under" a fixed key is that fixed
key followed by the key. -/
def Key.Child (k k2 : Key) : Key := ⟨k.string ++ k2.string⟩

/-- The keyed requests of the datastore interface over a store of type `σ`. -/
structure Datastore (σ : Type) where
  Get : Key → σ → Option Value × σ
  Has : Key → σ → Bool × σ
  GetSize : Key → σ → Option Nat × σ
  Put : Key → Value → σ → σ
  Delete : Key → σ → σ

/-- One access to a key of the physical store. -/
inductive Access where
  | read (key : String)
  | write (key : String)
deriving DecidableEq, Repr

/-- The key an access touches. -/
def Access.key : Access → String
  | .read k => k
  | .write k => k

/-- The physical key-value store shared by the subsystems (`models.MetadataDS`):
its content, and the accesses made to it so far, oldest first. -/
structure MapStore where
  data : String → Option Value
  log : List Access

/-- The datastore interface of the physical store; every request is logged. -/
def MetadataDS : Datastore MapStore where
  Get k s := (s.data k.string, ⟨s.data, s.log ++ [Access.read k.string]⟩)
  Has k s := ((s.data k.string).isSome, ⟨s.data, s.log ++ [Access.read k.string]⟩)
  GetSize k s :=
    ((s.data k.string).map List.length, ⟨s.data, s.log ++ [Access.read k.string]⟩)
  Put k v s :=
    ⟨fun x => if x = k.string then some v else s.data x, s.log ++ [Access.write k.string]⟩
  Delete k s :=
    ⟨fun x => if x = k.string then none else s.data x, s.log ++ [Access.write k.string]⟩

/-- A program of keyed requests, each next request chosen from the answers so
far: what an operation of a component does with the datastore handle it holds. -/
inductive Prog (α : Type) where
  | ret (a : α)
  | Get (k : Key) (cont : Option Value → Prog α)
  | Has (k : Key) (cont : Bool → Prog α)
  | GetSize (k : Key) (cont : Option Nat → Prog α)
  | Put (k : Key) (v : Value) (cont : Prog α)
  | Delete (k : Key) (cont : Prog α)

/-- Runs a program against a datastore handle. The result carries the keys
the program asked for, in order. -/
def Prog.run {σ α : Type} (ds : Datastore σ) : Prog α → σ → α × List Key × σ
  | .ret a, s => (a, [], s)
  | .Get k cont, s =>
    let r := (cont (ds.Get k s).1).run ds (ds.Get k s).2
    (r.1, k :: r.2.1, r.2.2)
  | .Has k cont, s =>
    let r := (cont (ds.Has k s).1).run ds (ds.Has k s).2
    (r.1, k :: r.2.1, r.2.2)
  | .GetSize k cont, s =>
    let r := (cont (ds.GetSize k s).1).run ds (ds.GetSize k s).2
    (r.1, k :: r.2.1, r.2.2)
  | .Put k v cont, s =>
    let r := cont.run ds (ds.Put k v s)
    (r.1, k :: r.2.1, r.2.2)
  | .Delete k cont, s =>
    let r := cont.run ds (ds.Delete k s)
    (r.1, k :: r.2.1, r.2.2)

end datastore

namespace namespace_

open datastore

/-- Modelled from the spec: `namespace.Wrap` belongs to the go-datastore
package, outside the repository. The wrapped handle is "scoped under a fixed key
prefix": a request for key `k` is the same request to the wrapped datastore
for the key `pfx` followed by `k`. -/
def Wrap {σ : Type} (child : Datastore σ) (pfx : Key) : Datastore σ where
  Get k s := child.Get (pfx.Child k) s
  Has k s := child.Has (pfx.Child k) s
  GetSize k s := child.GetSize (pfx.Child k) s
  Put k v s := child.Put (pfx.Child k) v s
  Delete k s := child.Delete (pfx.Child k) s

end namespace_

/-! ## The local piece storage backend -/

namespace piece

/-- A piece identifier, as the text of its content hash. -/
abbrev PieceIdentifier := String

/-- A byte. -/
abbrev Byte := Fin 256

/-- The failures of the storage backend named by the spec. -/
inductive StorageError where
  | NotFound
  | OutOfRange
  | IOFailure
deriving DecidableEq, Repr

/-- Modelled from the spec: the local backend built by `NewPieceFileStorage`
is defined outside `piece/modules.go`, in a file that is missing. It has a configured root
directory and the files under it, each a path with its bytes. -/
structure PieceFileStorage where
  root : String
  files : List (String × List Byte)
deriving DecidableEq, Repr

/-- Modelled from the spec: "maps a piece identifier deterministically to a
file path under a configured root directory". -/
def PieceFileStorage.pathOf (b : PieceFileStorage) (pieceID : PieceIdentifier) : String :=
  b.root ++ "/" ++ pieceID

/-- Modelled from the spec: `Has(pieceID)`, an existence check. -/
def PieceFileStorage.Has (b : PieceFileStorage) (pieceID : PieceIdentifier) : Bool :=
  (b.files.lookup (b.pathOf pieceID)).isSome

/-- Modelled from the spec: `GetSize(pieceID)` "fails with NotFound if
absent". -/
def PieceFileStorage.GetSize (b : PieceFileStorage) (pieceID : PieceIdentifier) :
    Except StorageError Nat :=
  match b.files.lookup (b.pathOf pieceID) with
  | none => .error .NotFound
  | some bytes => .ok bytes.length

/-- Modelled from the spec: `Save(pieceID, reader, length)` "writes piece
bytes"; "either the full piece is durably stored or the store is left as if
the call never happened". The piece is the first `length` bytes of the reader;
a reader that ends before them stores nothing and the call fails. -/
def PieceFileStorage.Save (b : PieceFileStorage) (pieceID : PieceIdentifier)
    (reader : List Byte) (length : Nat) : Except StorageError PieceFileStorage :=
  if reader.length < length then .error .IOFailure
  else .ok ⟨b.root,
    (b.pathOf pieceID, reader.take length) ::
      b.files.filter (fun f => f.1 ≠ b.pathOf pieceID)⟩

/-- Modelled from the spec: `Read(pieceID, offset, length)` returns the stream
at `offset`, here its `length` bytes; it "fails with OutOfRange if
offset+length exceeds stored size", and with NotFound for an unknown piece. -/
def PieceFileStorage.Read (b : PieceFileStorage) (pieceID : PieceIdentifier)
    (offset length : Nat) : Except StorageError (List Byte) :=
  match b.files.lookup (b.pathOf pieceID) with
  | none => .error .NotFound
  | some bytes =>
    if offset + length > bytes.length then .error .OutOfRange
    else .ok ((bytes.drop offset).take length)

/-- Modelled from the spec: `Delete(pieceID)`, "idempotent; succeeds (no-op)
if already absent". -/
def PieceFileStorage.Delete (b : PieceFileStorage) (pieceID : PieceIdentifier) :
    PieceFileStorage :=
  ⟨b.root, b.files.filter (fun f => f.1 ≠ b.pathOf pieceID)⟩

/-! ## piece/modules.go -/

/-- Modelled from the spec: `NewDsPieceStore` and the piece store it builds
are defined outside `piece/modules.go`, in a file that is missing. The piece metadata index keeps
the datastore handle it was built on and the ready callbacks registered on it;
all of its reads and writes are requests to that handle. `failure` is the
error of the construction, when it fails. -/
structure DsPieceStore (σ : Type) where
  ds : datastore.Datastore σ
  onReady : List String

/-- Modelled from the spec: see `DsPieceStore`. -/
def NewDsPieceStore {σ : Type} (failure : Option GoError) (ds : datastore.Datastore σ) :
    Option (DsPieceStore σ) × Option GoError :=
  match failure with
  | some err => (none, some err)
  | none => (some ⟨ds, []⟩, none)

/-- The method `ps.OnReady`. -/
def DsPieceStore.OnReady {σ : Type} (ps : DsPieceStore σ) (logger : String) :
    DsPieceStore σ :=
  ⟨ps.ds, ps.onReady ++ [logger]⟩

/-- An operation of the piece store: a program of requests run on its handle. -/
def DsPieceStore.exec {σ α : Type} (ps : DsPieceStore σ) (op : datastore.Prog α) (s : σ) :
    α × List datastore.Key × σ :=
  op.run ps.ds s

/-- `NewProviderPieceStore` (piece/modules.go:18-31). -/
def NewProviderPieceStore {σ : Type} (failure : Option GoError)
    (lc : Lifecycle) (ds : datastore.Datastore σ) :
    (Option (DsPieceStore σ) × Option GoError) × Lifecycle :=
  match NewDsPieceStore failure (namespace_.Wrap ds (datastore.NewKey "/storagemarket")) with
  | (_, some err) => ((none, some err), lc)
  | (ps, none) =>
    let ps := ps.map (fun p => p.OnReady "piecestore")
    let lc := lc.Append ⟨some [HookAction.Start "piecestore"], none⟩
    ((ps, none), lc)

/-- `NewPieceStorage` (piece/modules.go:33-40). `NewPieceFileStorage` is not
part of the file and is an argument. -/
def NewPieceStorage {IPieceStorage : Type}
    (NewPieceFileStorage : String → Option IPieceStorage × Option GoError)
    (pieceStrorageCfg : config.PieceStorage) : Option IPieceStorage × Option GoError :=
  if pieceStrorageCfg.Type_ = "local" then
    NewPieceFileStorage pieceStrorageCfg.Path
  else
    (none, some (GoError.errorf
      ("unsupport piece piecestorage type " ++ pieceStrorageCfg.Type_)))

end piece

/-- One binding of a `builder.Options` list: the type bound, how its value is
made, and the comment the source puts on the line. -/
structure Override where
  target : String
  provider : String
  comment : String
deriving DecidableEq, Repr

namespace piece

/-- `PieceOpts` (piece/modules.go:42-49): the three bindings, in order. The
third takes its value from the second (`builder.From`). -/
def PieceOpts : List Override :=
  [ ⟨"IPieceStorage", "NewPieceStorage", "save read peiece data"⟩,
    ⟨"ExtendPieceStore", "NewDsPieceStore", ""⟩,
    ⟨"piecestore.PieceStore", "builder.From(new(ExtendPieceStore))",
      "save piece metadata(location)   save to metadata /storagemarket"⟩ ]

end piece

/-! ## client/modules.go -/

namespace time

/-- `time.Second`, in nanoseconds as `time.Duration` counts. -/
def Second : Nat := 1000000000

/-- `time.Minute`. -/
def Minute : Nat := 60 * Second

end time

namespace client

/-- The name of a collaborator object that is only passed along (a datastore,
the libp2p host, graphsync, a node API, the journal). -/
abbrev Handle := String

/-- What `dtnet.RetryParameters` and `smnet.RetryParameters` carry to the
network: `(minDuration, maxDuration, attempts, backoffFactor)`. -/
structure RetryParams where
  minDuration : Nat
  maxDuration : Nat
  attempts : Nat
  backoffFactor : Nat
deriving DecidableEq, Repr

/-- `dtnet.RetryParameters` / `smnet.RetryParameters`. -/
def RetryParameters (minDuration maxDuration attempts backoffFactor : Nat) : RetryParams :=
  ⟨minDuration, maxDuration, attempts, backoffFactor⟩

/-- The local `dtRetryParams` of `NewClientGraphsyncDataTransfer`
(client/modules.go:74). -/
def dtRetryParams : RetryParams :=
  RetryParameters time.Second (5 * time.Minute) 15 5

/-- The local `marketsRetryParams` of `StorageClient` (client/modules.go:139). -/
def marketsRetryParams : RetryParams :=
  RetryParameters time.Second (5 * time.Minute) 15 5

/-- The retries the comment above both parameter lines gives
(client/modules.go:72-73 and 137-138): `1s, 5s, 25s, 2m5s, 5m x 11`. -/
def documentedRetries : List Nat :=
  [1 * time.Second, 5 * time.Second, 25 * time.Second, 2 * time.Minute + 5 * time.Second] ++
    List.replicate 11 (5 * time.Minute)

/-- The rule under which C6 reads the parameters: the delay before retry `i`
(from 0) is the minimum duration times the factor to the power `i`, capped at
the maximum duration. The libraries that do the waiting are outside the
repository; this is the rule to compare the documented retries with, not an
embedding of their code. -/
def RetryParams.cappedDelay (p : RetryParams) (i : Nat) : Nat :=
  min (p.minDuration * p.backoffFactor ^ i) p.maxDuration

/-- A network built by `NewFromLibp2pHost(h, options...)`. -/
structure Libp2pNetwork where
  host : Handle
  retry : Option RetryParams
deriving DecidableEq, Repr

/-- The transport built by `dtgstransport.NewTransport(h.ID(), gs)`. -/
structure Transport where
  peerID : Handle
  gs : Handle
deriving DecidableEq, Repr

/-- The fields of `channelmonitor.Config` the source sets. -/
structure ChannelMonitorConfig where
  AcceptTimeout : Nat
  CompleteTimeout : Nat
  RestartDebounce : Nat
  RestartBackoff : Nat
  MaxConsecutiveRestarts : Nat
deriving DecidableEq, Repr

/-- The libp2p host: its name and what `h.ID()` returns. -/
structure Host where
  name : Handle
  ID : Handle
deriving DecidableEq, Repr

/-- The operating system as the file uses it: `filepath.Join` of two elements,
and the outcome of `os.MkdirAll(path, perm)`, `none` when it succeeds. -/
structure OS where
  Join : String → String → String
  MkdirAll : String → Nat → Option GoError

/-- The calls a constructor makes with a directory, in the order made. -/
inductive DirCall where
  | MkdirAll (path : String) (perm : Nat)
  | NewManager (dir : String)
  | NewCARBlockstoreAccessor (rootdir : String)
  | NewDataTransfer (cidListsDir : String)
deriving DecidableEq, Repr

/-- What a constructor returns, `(val, err)`, and the directory calls it made. -/
structure Ret (α : Type) where
  val : Option α
  err : Option GoError
  calls : List DirCall

/-- The object `discoveryimpl.NewLocal(ds)` builds. -/
structure Local where
  ds : Handle
  onReady : List String
deriving DecidableEq, Repr

/-- `NewLocalDiscovery` (client/modules.go:41-53). `NewLocal` is the error of
`discoveryimpl.NewLocal(ds)`, `none` when it succeeds. -/
def NewLocalDiscovery (NewLocal : Handle → Option GoError)
    (lc : Lifecycle) (ds : Handle) : (Option Local × Option GoError) × Lifecycle :=
  match NewLocal ds with
  | some err => ((none, some err), lc)
  | none =>
    let lc := lc.Append ⟨some [HookAction.Start "discovery"], none⟩
    ((some ⟨ds, ["discovery"]⟩, none), lc)

/-- The resolver `discoveryimpl.Multi(l)` builds. -/
structure Multi where
  resolvers : List Local
deriving DecidableEq, Repr

/-- `RetrievalResolver` (client/modules.go:55-57). -/
def RetrievalResolver (l : Local) : Multi := ⟨[l]⟩

/-- The import manager `imports.NewManager(ns, dir)` builds. -/
structure ClientImportMgr where
  ns : Handle
  rootDir : String
deriving DecidableEq, Repr

/-- `NewClientImportMgr` (client/modules.go:59-67). -/
def NewClientImportMgr (os : OS) (ns : Handle) (r : String) : Ret ClientImportMgr :=
  let dir := os.Join r "imports"
  match os.MkdirAll dir 0o755 with
  | some err =>
    ⟨none, some (GoError.wrapf ("failed to create directory " ++ dir ++ ": " ++ err.Error) err),
      [DirCall.MkdirAll dir 0o755]⟩
  | none => ⟨some ⟨ns, dir⟩, none, [DirCall.MkdirAll dir 0o755, DirCall.NewManager dir]⟩

/-- The manager `dtimpl.NewDataTransfer` builds, with its ready callbacks. -/
structure DataTransfer where
  ds : Handle
  cidListsDir : String
  net : Libp2pNetwork
  transport : Transport
  restartConfig : ChannelMonitorConfig
  onReady : List String
deriving DecidableEq, Repr

/-- `NewClientGraphsyncDataTransfer` (client/modules.go:71-117).
`NewDataTransfer` is the error of `dtimpl.NewDataTransfer` for the manager
asked for, `none` when it succeeds. -/
def NewClientGraphsyncDataTransfer (os : OS) (NewDataTransfer : DataTransfer → Option GoError)
    (lc : Lifecycle) (h : Host) (gs : Handle) (dtDs : Handle) (homeDir : String) :
    Ret DataTransfer × Lifecycle :=
  let net : Libp2pNetwork := ⟨h.name, some dtRetryParams⟩
  let transport : Transport := ⟨h.ID, gs⟩
  let mkdir := DirCall.MkdirAll (os.Join homeDir "data-transfer") 0o755
  let err := os.MkdirAll (os.Join homeDir "data-transfer") 0o755
  if (match err with
      | some e => !e.IsExist
      | none => false) then
    (⟨none, err, [mkdir]⟩, lc)
  else
    let dtRestartConfig : ChannelMonitorConfig :=
      ⟨0, 0, 10 * time.Second, time.Minute, 3⟩
    let dt : DataTransfer :=
      ⟨dtDs, os.Join homeDir "data-transfer", net, transport, dtRestartConfig, []⟩
    let calls := [mkdir, DirCall.NewDataTransfer (os.Join homeDir "data-transfer")]
    match NewDataTransfer dt with
    | some err => (⟨none, some err, calls⟩, lc)
    | none =>
      let lc := lc.Append
        ⟨some [HookAction.SubscribeToEvents "client data transfer" "DataTransferLogger",
               HookAction.Start "client data transfer"],
         some [HookAction.Stop "client data transfer"]⟩
      (⟨some ⟨dt.ds, dt.cidListsDir, dt.net, dt.transport, dt.restartConfig,
          ["client data transfer"]⟩, none, calls⟩, lc)

/-- The accessor `storageadapter.NewImportsBlockstoreAccessor(importmgr)` builds. -/
structure ImportsBlockstoreAccessor where
  importmgr : ClientImportMgr
deriving DecidableEq, Repr

/-- `StorageBlockstoreAccessor` (client/modules.go:121-123). -/
def StorageBlockstoreAccessor (importmgr : ClientImportMgr) : ImportsBlockstoreAccessor :=
  ⟨importmgr⟩

/-- The accessor `retrievaladapter.NewCARBlockstoreAccessor(dir)` builds. -/
structure CARBlockstoreAccessor where
  rootdir : String
deriving DecidableEq, Repr

/-- `RetrievalBlockstoreAccessor` (client/modules.go:127-133). -/
def RetrievalBlockstoreAccessor (os : OS) (r : String) : Ret CARBlockstoreAccessor :=
  let dir := os.Join r "retrievals"
  match os.MkdirAll dir 0o755 with
  | some err =>
    ⟨none, some (GoError.wrapf ("failed to create directory " ++ dir ++ ": " ++ err.Error) err),
      [DirCall.MkdirAll dir 0o755]⟩
  | none => ⟨some ⟨dir⟩, none, [DirCall.MkdirAll dir 0o755, DirCall.NewCARBlockstoreAccessor dir]⟩

/-- The client `storageimpl.NewClient` builds, for a data-transfer manager of
type `CDT` and a blockstore accessor of type `BA` (both are interfaces in the
source). -/
structure StorageClientImpl (CDT BA : Type) where
  net : Libp2pNetwork
  dataTransfer : CDT
  discovery : Local
  deals : Handle
  scn : Handle
  accessor : BA
  dealPollingInterval : Nat
  onReady : List String

/-- `StorageClient` (client/modules.go:135-161). `NewClient` is the error of
`storageimpl.NewClient` for the client asked for, `none` when it succeeds. -/
def StorageClient {CDT BA : Type} (NewClient : StorageClientImpl CDT BA → Option GoError)
    (lc : Lifecycle) (h : Host) (dataTransfer : CDT) (discovery : Local)
    (deals : Handle) (scn : Handle) (accessor : BA) (j : Handle) :
    (Option (StorageClientImpl CDT BA) × Option GoError) × Lifecycle :=
  let net : Libp2pNetwork := ⟨h.name, some marketsRetryParams⟩
  let c : StorageClientImpl CDT BA :=
    ⟨net, dataTransfer, discovery, deals, scn, accessor, time.Second, []⟩
  match NewClient c with
  | some err => ((none, some err), lc)
  | none =>
    let lc := lc.Append
      ⟨some [HookAction.SubscribeToEvents "storage client" "StorageClientLogger",
             HookAction.RegisterEventType "markets/storage/client" "state_change",
             HookAction.SubscribeToEvents "storage client" ("StorageClientJournaler " ++ j),
             HookAction.Start "storage client"],
       some [HookAction.Stop "storage client"]⟩
    ((some ⟨c.net, c.dataTransfer, c.discovery, c.deals, c.scn, c.accessor,
        c.dealPollingInterval, ["storage client"]⟩, none), lc)

/-- The node adapter `retrievaladapter.NewRetrievalClientNode(payAPI, fullApi)`
builds. -/
structure RetrievalClientNode where
  payAPI : Handle
  fullApi : Handle
deriving DecidableEq, Repr

/-- The client `retrievalimpl.NewClient` builds, for a data-transfer manager of
type `CDT`, a peer resolver of type `PR` and a blockstore accessor of type
`BA`. -/
structure RetrievalClientImpl (CDT PR BA : Type) where
  libP2pHost : Libp2pNetwork
  dt : CDT
  adapter : RetrievalClientNode
  resolver : PR
  ds : Handle
  accessor : BA
  onReady : List String

/-- `RetrievalClient` (client/modules.go:164-185). `NewClient` is the error of
`retrievalimpl.NewClient` for the client asked for, `none` when it succeeds. -/
def RetrievalClient {CDT PR BA : Type}
    (NewClient : RetrievalClientImpl CDT PR BA → Option GoError)
    (lc : Lifecycle) (h : Host) (dt : CDT) (payAPI : Handle) (resolver : PR)
    (ds : Handle) (fullApi : Handle) (accessor : BA) (j : Handle) :
    (Option (RetrievalClientImpl CDT PR BA) × Option GoError) × Lifecycle :=
  let adapter : RetrievalClientNode := ⟨payAPI, fullApi⟩
  let libP2pHost : Libp2pNetwork := ⟨h.name, none⟩
  let client : RetrievalClientImpl CDT PR BA :=
    ⟨libP2pHost, dt, adapter, resolver, ds, accessor, []⟩
  match NewClient client with
  | some err => ((none, some err), lc)
  | none =>
    let lc := lc.Append
      ⟨some [HookAction.SubscribeToEvents "retrieval client" "RetrievalClientLogger",
             HookAction.RegisterEventType "markets/retrieval/client" "state_change",
             HookAction.SubscribeToEvents "retrieval client" ("RetrievalClientJournaler " ++ j),
             HookAction.Start "retrieval client"],
       none⟩
    ((some ⟨client.libP2pHost, client.dt, client.adapter, client.resolver, client.ds,
        client.accessor, ["retrieval client"]⟩, none), lc)

/-- A `journal.EventType`, as registered. -/
structure EventType where
  System : String
  Event : String
deriving DecidableEq, Repr

/-- The payload `StorageClientEvt` (client/modules.go:187-190). -/
structure StorageClientEvt (ClientDeal : Type) where
  Event : String
  Deal : ClientDeal

/-- The payload `RetrievalClientEvt` (client/modules.go:192-195). -/
structure RetrievalClientEvt (ClientDealState : Type) where
  Event : String
  Deal : ClientDealState

/-- A Go `map[ClientEvent]string`, the event names table of a market. -/
abbrev EventNames := List (Nat × String)

/-- Go map indexing `m[event]`: the zero value, the empty string, for a key
the map does not hold. -/
def EventNames.index (m : EventNames) (event : Nat) : String :=
  (m.lookup event).getD ""

/-- A call made on a journal: `RecordEvent(evtType, supplier)`, with the
closure handed over as the supplier of the payload. -/
inductive JournalCall (P : Type) where
  | RecordEvent (j : Handle) (evtType : EventType) (supplier : Unit → P)

/-- `StorageClientJournaler` (client/modules.go:198-207). `ClientEvents` is the
table `storagemarket.ClientEvents`. The callback has no return value: its
result is the unit and the calls made on the journal. -/
def StorageClientJournaler {ClientDeal : Type} (ClientEvents : EventNames)
    (j : Handle) (evtType : EventType) :
    Nat → ClientDeal → Unit × List (JournalCall (StorageClientEvt ClientDeal)) :=
  fun event deal =>
    ((), [JournalCall.RecordEvent j evtType
      (fun _ => ⟨ClientEvents.index event, deal⟩)])

/-- `RetrievalClientJournaler` (client/modules.go:210-219). `ClientEvents` is
the table `retrievalmarket.ClientEvents`. -/
def RetrievalClientJournaler {ClientDealState : Type} (ClientEvents : EventNames)
    (j : Handle) (evtType : EventType) :
    Nat → ClientDealState → Unit × List (JournalCall (RetrievalClientEvt ClientDealState)) :=
  fun event deal =>
    ((), [JournalCall.RecordEvent j evtType
      (fun _ => ⟨ClientEvents.index event, deal⟩)])

/-- `MarketClientOpts` (client/modules.go:221-233). -/
def MarketClientOpts : List Override :=
  [ ⟨"*discoveryimpl.Local", "NewLocalDiscovery", ""⟩,
    ⟨"discovery.PeerResolver", "RetrievalResolver", ""⟩,
    ⟨"network.ClientDataTransfer", "NewClientGraphsyncDataTransfer", ""⟩,
    ⟨"ClientImportMgr", "NewClientImportMgr", ""⟩,
    ⟨"storagemarket.BlockstoreAccessor", "StorageBlockstoreAccessor", ""⟩,
    ⟨"retrievalmarket.BlockstoreAccessor", "RetrievalBlockstoreAccessor", ""⟩,
    ⟨"retrievalmarket.RetrievalClient", "RetrievalClient", ""⟩,
    ⟨"storagemarket.StorageClient", "StorageClient", ""⟩ ]

end client

/-! ## Sample inputs -/

namespace sample

/-- A `NewPieceFileStorage` that opens an empty backend at any path. -/
def openEmpty (path : String) : Option piece.PieceFileStorage × Option GoError :=
  (some ⟨path, []⟩, none)

/-- The configuration of a local backend under `/mnt/piece`. -/
def localCfg : config.PieceStorage := ⟨"local", "/mnt/piece"⟩

/-- A configuration of a kind the switch does not know. -/
def s3Cfg : config.PieceStorage := ⟨"s3", "bucket"⟩

/-- An operating system on which nothing can be created under `/ro`, on which
creating `/busy/data-transfer` fails because it exists, and on which every
other directory is created. -/
def os : client.OS where
  Join a b := a ++ "/" ++ b
  MkdirAll path _ :=
    if path = "/ro/imports" ∨ path = "/ro/retrievals" ∨ path = "/ro/data-transfer" then
      some (GoError.foreign "mkdir: permission denied" false)
    else if path = "/busy/imports" ∨ path = "/busy/retrievals" ∨
        path = "/busy/data-transfer" then
      some (GoError.foreign "mkdir: file exists" true)
    else none

/-- A libp2p host. -/
def host : client.Host := ⟨"host", "12D3KooW"⟩

/-- A few rows in the shape of `storagemarket.ClientEvents`. -/
def clientEvents : client.EventNames :=
  [(0, "ClientEventOpen"), (1, "ClientEventReserveFundsFailed")]

/-- The event type the storage client registers. -/
def evtType : client.EventType := ⟨"markets/storage/client", "state_change"⟩

/-- A physical store that holds one record of another subsystem. -/
def sharedStore : datastore.MapStore :=
  ⟨fun x => if x = "/deals/1" then some [1] else none, []⟩

/-- A piece store operation: write a record, then read it back. -/
def putThenGet : datastore.Prog (Option datastore.Value) :=
  .Put ⟨"/pieces/Qm123"⟩ [7] (.Get ⟨"/pieces/Qm123"⟩ (fun v => .ret v))

end sample

/-! ## Theorems -/

/-- C1: `NewPieceStorage` selects the backend from the configured kind only.
When `Type` is `"local"` the result is the pair `NewPieceFileStorage` returns
for `Path`; for any other `Type` no backend is returned and the error is
non-nil (it is the `unsupport piece piecestorage type` error, whatever the
path and whatever `NewPieceFileStorage` would do). -/
theorem NewPieceStorage_selects_by_type {IPieceStorage : Type}
    (NewPieceFileStorage : String → Option IPieceStorage × Option GoError)
    (cfg : config.PieceStorage) :
    (cfg.Type_ = "local" →
      piece.NewPieceStorage NewPieceFileStorage cfg = NewPieceFileStorage cfg.Path) ∧
    (cfg.Type_ ≠ "local" →
      (piece.NewPieceStorage NewPieceFileStorage cfg).1 = none ∧
      (piece.NewPieceStorage NewPieceFileStorage cfg).2 ≠ none ∧
      (piece.NewPieceStorage NewPieceFileStorage cfg).2 =
        some (GoError.errorf ("unsupport piece piecestorage type " ++ cfg.Type_))) := by
  constructor
  · intro h
    simp [piece.NewPieceStorage, h]
  · intro h
    simp [piece.NewPieceStorage, h]

/-- Witness of C1 on a local and on an unknown kind. -/
theorem NewPieceStorage_selects_by_type_witness :
    piece.NewPieceStorage sample.openEmpty sample.localCfg = sample.openEmpty "/mnt/piece" ∧
    (piece.NewPieceStorage sample.openEmpty sample.s3Cfg).1 = none ∧
    (piece.NewPieceStorage sample.openEmpty sample.s3Cfg).2 ≠ none :=
  ⟨(NewPieceStorage_selects_by_type sample.openEmpty sample.localCfg).1 (by decide),
   ((NewPieceStorage_selects_by_type sample.openEmpty sample.s3Cfg).2 (by decide)).1,
   ((NewPieceStorage_selects_by_type sample.openEmpty sample.s3Cfg).2 (by decide)).2.1⟩

/-- C5: round trip of the storage backend. On every local backend `b` that
`NewPieceStorage` returns, and in whatever state it is, saving the bytes
`data` as piece `P` succeeds and reading `len(data)` bytes of `P` from offset 0
afterwards returns exactly `data`. -/
theorem Save_then_Read_round_trip
    (NewPieceFileStorage : String → Option piece.PieceFileStorage × Option GoError)
    (cfg : config.PieceStorage) (b : piece.PieceFileStorage)
    (_h : (piece.NewPieceStorage NewPieceFileStorage cfg).1 = some b)
    (P : piece.PieceIdentifier) (data : List piece.Byte) :
    ∃ b2, b.Save P data data.length = .ok b2 ∧ b2.Read P 0 data.length = .ok data := by
  refine ⟨⟨b.root, (b.pathOf P, data.take data.length) ::
      b.files.filter (fun f => f.1 ≠ b.pathOf P)⟩, ?_, ?_⟩
  · simp [piece.PieceFileStorage.Save]
  · simp [piece.PieceFileStorage.Read, piece.PieceFileStorage.pathOf, List.lookup]

/-- Witness of C5: three bytes saved on the backend opened for `/mnt/piece`. -/
theorem Save_then_Read_round_trip_witness :
    ∃ b2, (⟨"/mnt/piece", []⟩ : piece.PieceFileStorage).Save "Qm123" [1, 2, 3] 3 = .ok b2 ∧
      b2.Read "Qm123" 0 3 = .ok [1, 2, 3] :=
  Save_then_Read_round_trip sample.openEmpty sample.localCfg ⟨"/mnt/piece", []⟩ rfl
    "Qm123" [1, 2, 3]

/-- C6: the retry parameters that `NewClientGraphsyncDataTransfer` and
`StorageClient` hand to the network they build are 1 second, 5 minutes, 15
attempts and factor 5. Read as a capped geometric backoff they give, for the
15 attempts, the retries the source documents, 1s, 5s, 25s, 2m5s and then 5m
eleven times: delay `i` is the smaller of `5^i` seconds and 300 seconds, the
first four are below the cap, the other eleven are at the cap, and the
fifteen delays add up to 3456 seconds. -/
theorem retry_schedule_one_hour (CDT BA : Type) (os : client.OS)
    (NewDataTransfer : client.DataTransfer → Option GoError) (lc : Lifecycle)
    (h : client.Host) (gs dtDs : client.Handle) (homeDir : String)
    (NewClient : client.StorageClientImpl CDT BA → Option GoError)
    (dataTransfer : CDT) (discovery : client.Local) (deals scn : client.Handle)
    (accessor : BA) (j : client.Handle)
    (hM : os.MkdirAll (os.Join homeDir "data-transfer") 0o755 = none)
    (hD : ∀ d, NewDataTransfer d = none) (hC : ∀ c, NewClient c = none) :
    ∃ p : client.RetryParams,
      (∃ dt, (client.NewClientGraphsyncDataTransfer os NewDataTransfer lc h gs dtDs
          homeDir).1.val = some dt ∧ dt.net.retry = some p) ∧
      (∃ c, (client.StorageClient NewClient lc h dataTransfer discovery deals scn
          accessor j).1.1 = some c ∧ c.net.retry = some p) ∧
      p = ⟨time.Second, 5 * time.Minute, 15, 5⟩ ∧
      (List.range p.attempts).map p.cappedDelay = client.documentedRetries ∧
      (∀ i : Fin 15, p.cappedDelay i = min (5 ^ i.val * time.Second) (300 * time.Second)) ∧
      (∀ i : Fin 15, (i.val < 4 ↔ p.cappedDelay i < 5 * time.Minute) ∧
        (4 ≤ i.val ↔ p.cappedDelay i = 5 * time.Minute)) ∧
      client.documentedRetries.length = 15 ∧
      client.documentedRetries.sum = 3456 * time.Second := by
  refine ⟨client.dtRetryParams, ?_, ?_, rfl, by decide, by decide, by decide, by decide,
    by decide⟩
  · simp [client.NewClientGraphsyncDataTransfer, hM, hD]
  · simp [client.StorageClient, hC]
    rfl

/-- Witness of C6: on a system where the directory and both objects can be
built, the manager and the client carry the parameters, and the fifteen
delays add up to 3456 seconds. -/
theorem retry_schedule_one_hour_witness :
    ∃ p : client.RetryParams,
      (∃ dt, (client.NewClientGraphsyncDataTransfer sample.os (fun _ => none) ⟨[]⟩
          sample.host "gs" "transfer-ds" "/home/u").1.val = some dt ∧
        dt.net.retry = some p) ∧
      p = ⟨1000000000, 300000000000, 15, 5⟩ ∧
      ((List.range p.attempts).map p.cappedDelay).sum = 3456000000000 := by
  obtain ⟨p, hdt, _, hp, hs, _, _, _, hsum⟩ :=
    retry_schedule_one_hour String String sample.os (fun _ => none) ⟨[]⟩ sample.host
      "gs" "transfer-ds" "/home/u" (fun _ => none) "dt" ⟨"deals", []⟩ "deals-ds" "node"
      "accessor" "journal" (by decide) (fun _ => rfl) (fun _ => rfl)
  exact ⟨p, hdt, hp, by rw [hs, hsum]; decide⟩

/-- C7: the journalers report each state change once and unaltered. The
callback of `StorageClientJournaler`, and that of `RetrievalClientJournaler`,
makes exactly one `RecordEvent` call, on the journal and with the event type
given; the payload it supplies has the deal passed in and the name the events
table gives the event, the empty string when the table has no row for it; the
callback itself returns nothing. -/
theorem journalers_record_once (ClientDeal ClientDealState : Type)
    (ClientEvents : client.EventNames) (j : client.Handle) (evtType : client.EventType)
    (event : Nat) (deal : ClientDeal) (rdeal : ClientDealState) :
    (∃ supplier,
      client.StorageClientJournaler ClientEvents j evtType event deal =
        ((), [client.JournalCall.RecordEvent j evtType supplier]) ∧
      (supplier ()).Deal = deal ∧
      (supplier ()).Event = (ClientEvents.lookup event).getD "" ∧
      (ClientEvents.lookup event = none → (supplier ()).Event = "")) ∧
    (∃ supplier,
      client.RetrievalClientJournaler ClientEvents j evtType event rdeal =
        ((), [client.JournalCall.RecordEvent j evtType supplier]) ∧
      (supplier ()).Deal = rdeal ∧
      (supplier ()).Event = (ClientEvents.lookup event).getD "" ∧
      (ClientEvents.lookup event = none → (supplier ()).Event = "")) := by
  refine ⟨⟨fun _ => ⟨ClientEvents.index event, deal⟩, rfl, rfl, rfl, ?_⟩,
    ⟨fun _ => ⟨ClientEvents.index event, rdeal⟩, rfl, rfl, rfl, ?_⟩⟩
  · intro h
    simp [client.EventNames.index, h]
  · intro h
    simp [client.EventNames.index, h]

/-- Witness of C7: event 1 is reported under its name, event 99, which the
sample table does not hold, under the empty string. -/
theorem journalers_record_once_witness :
    (∃ supplier,
      client.StorageClientJournaler sample.clientEvents "journal" sample.evtType 99 "deal-7" =
        ((), [client.JournalCall.RecordEvent "journal" sample.evtType supplier]) ∧
      (supplier ()).Deal = "deal-7" ∧ (supplier ()).Event = "") ∧
    (∃ supplier,
      client.RetrievalClientJournaler sample.clientEvents "journal" sample.evtType 1 "deal-8" =
        ((), [client.JournalCall.RecordEvent "journal" sample.evtType supplier]) ∧
      (supplier ()).Deal = "deal-8" ∧
      (supplier ()).Event = "ClientEventReserveFundsFailed") := by
  obtain ⟨⟨f, hf, hd, _, he⟩, _⟩ :=
    journalers_record_once String String sample.clientEvents "journal"
      sample.evtType 99 "deal-7" "deal-8"
  obtain ⟨_, ⟨g, hg, hgd, hge, _⟩⟩ :=
    journalers_record_once String String sample.clientEvents "journal"
      sample.evtType 1 "deal-7" "deal-8"
  exact ⟨⟨f, hf, hd, he (by decide)⟩, ⟨g, hg, hgd, by rw [hge]; decide⟩⟩

/-- C2: `RetrievalBlockstoreAccessor` fails fast. If creating `<home>/retrievals`
fails with `e`, no accessor is returned and the error returned is non-nil and
wraps `e`; if it succeeds, the accessor returned is the one bound to exactly
`<home>/retrievals` and the error is nil; an accessor is returned only when
the directory was created. -/
theorem RetrievalBlockstoreAccessor_fails_fast (os : client.OS) (r : String) :
    (∀ e, os.MkdirAll (os.Join r "retrievals") 0o755 = some e →
      (client.RetrievalBlockstoreAccessor os r).val = none ∧
      ∃ w, (client.RetrievalBlockstoreAccessor os r).err = some w ∧ w.Unwrap = some e) ∧
    (os.MkdirAll (os.Join r "retrievals") 0o755 = none →
      (client.RetrievalBlockstoreAccessor os r).val = some ⟨os.Join r "retrievals"⟩ ∧
      (client.RetrievalBlockstoreAccessor os r).err = none) ∧
    ((client.RetrievalBlockstoreAccessor os r).val ≠ none →
      os.MkdirAll (os.Join r "retrievals") 0o755 = none) := by
  refine ⟨?_, ?_, ?_⟩
  · intro e h
    simp [client.RetrievalBlockstoreAccessor, h, GoError.Unwrap]
  · intro h
    simp [client.RetrievalBlockstoreAccessor, h]
  · intro h
    cases hm : os.MkdirAll (os.Join r "retrievals") 0o755 with
    | none => rfl
    | some e => simp [client.RetrievalBlockstoreAccessor, hm] at h

/-- Witness of C2: under `/ro` the creation is refused and wrapped, under
`/home/u` the accessor is bound to `/home/u/retrievals`. -/
theorem RetrievalBlockstoreAccessor_fails_fast_witness :
    ((client.RetrievalBlockstoreAccessor sample.os "/ro").val = none ∧
      ∃ w, (client.RetrievalBlockstoreAccessor sample.os "/ro").err = some w ∧
        w.Unwrap = some (GoError.foreign "mkdir: permission denied" false)) ∧
    ((client.RetrievalBlockstoreAccessor sample.os "/home/u").val =
        some ⟨"/home/u/retrievals"⟩ ∧
      (client.RetrievalBlockstoreAccessor sample.os "/home/u").err = none) :=
  ⟨(RetrievalBlockstoreAccessor_fails_fast sample.os "/ro").1 _ (by decide),
   (RetrievalBlockstoreAccessor_fails_fast sample.os "/home/u").2.1 (by decide)⟩

/-- C3: the three constructors create the home-directory layout with mode
0755 (`rwxr-xr-x`). For every home directory `h`: `NewClientImportMgr` calls
`MkdirAll` once, for `h/imports` with 0755, and when that succeeds it builds
the import manager on `h/imports` and returns it; `RetrievalBlockstoreAccessor`
does the same for `h/retrievals` and its accessor;
`NewClientGraphsyncDataTransfer` calls `MkdirAll` once, for `h/data-transfer`
with 0755, and when that succeeds it asks `NewDataTransfer` for a manager on
`h/data-transfer` and returns that manager when it is built. When the creation
fails (for the data transfer: with an error that is not already-exists) the
`MkdirAll` call is the only call and no component is returned. -/
theorem home_layout_created_0755 (os : client.OS) (h : String) (ns : client.Handle)
    (NewDataTransfer : client.DataTransfer → Option GoError) (lc : Lifecycle)
    (host : client.Host) (gs dtDs : client.Handle) :
    (0o755 : Nat) = 7 * 8 ^ 2 + 5 * 8 + 5 ∧
    ((os.MkdirAll (os.Join h "imports") 0o755 = none →
        (client.NewClientImportMgr os ns h).calls =
          [client.DirCall.MkdirAll (os.Join h "imports") 0o755,
            client.DirCall.NewManager (os.Join h "imports")] ∧
        (client.NewClientImportMgr os ns h).val = some ⟨ns, os.Join h "imports"⟩ ∧
        (client.NewClientImportMgr os ns h).err = none) ∧
      (∀ e, os.MkdirAll (os.Join h "imports") 0o755 = some e →
        (client.NewClientImportMgr os ns h).calls =
          [client.DirCall.MkdirAll (os.Join h "imports") 0o755] ∧
        (client.NewClientImportMgr os ns h).val = none)) ∧
    ((os.MkdirAll (os.Join h "retrievals") 0o755 = none →
        (client.RetrievalBlockstoreAccessor os h).calls =
          [client.DirCall.MkdirAll (os.Join h "retrievals") 0o755,
            client.DirCall.NewCARBlockstoreAccessor (os.Join h "retrievals")] ∧
        (client.RetrievalBlockstoreAccessor os h).val = some ⟨os.Join h "retrievals"⟩ ∧
        (client.RetrievalBlockstoreAccessor os h).err = none) ∧
      (∀ e, os.MkdirAll (os.Join h "retrievals") 0o755 = some e →
        (client.RetrievalBlockstoreAccessor os h).calls =
          [client.DirCall.MkdirAll (os.Join h "retrievals") 0o755] ∧
        (client.RetrievalBlockstoreAccessor os h).val = none)) ∧
    ((os.MkdirAll (os.Join h "data-transfer") 0o755 = none →
        (client.NewClientGraphsyncDataTransfer os NewDataTransfer lc host gs dtDs h).1.calls =
          [client.DirCall.MkdirAll (os.Join h "data-transfer") 0o755,
            client.DirCall.NewDataTransfer (os.Join h "data-transfer")] ∧
        (NewDataTransfer ⟨dtDs, os.Join h "data-transfer",
            ⟨host.name, some client.dtRetryParams⟩, ⟨host.ID, gs⟩,
            ⟨0, 0, 10 * time.Second, time.Minute, 3⟩, []⟩ = none →
          (client.NewClientGraphsyncDataTransfer os NewDataTransfer lc host gs dtDs h).1.val =
            some ⟨dtDs, os.Join h "data-transfer",
              ⟨host.name, some client.dtRetryParams⟩, ⟨host.ID, gs⟩,
              ⟨0, 0, 10 * time.Second, time.Minute, 3⟩, ["client data transfer"]⟩ ∧
          (client.NewClientGraphsyncDataTransfer os NewDataTransfer lc host gs dtDs h).1.err =
            none)) ∧
      (∀ e, os.MkdirAll (os.Join h "data-transfer") 0o755 = some e → e.IsExist = false →
        (client.NewClientGraphsyncDataTransfer os NewDataTransfer lc host gs dtDs h).1.calls =
          [client.DirCall.MkdirAll (os.Join h "data-transfer") 0o755] ∧
        (client.NewClientGraphsyncDataTransfer os NewDataTransfer lc host gs dtDs h).1.val =
          none)) := by
  refine ⟨by decide, ⟨?_, ?_⟩, ⟨?_, ?_⟩, ⟨?_, ?_⟩⟩
  · intro hm
    simp [client.NewClientImportMgr, hm]
  · intro e hm
    simp [client.NewClientImportMgr, hm]
  · intro hm
    simp [client.RetrievalBlockstoreAccessor, hm]
  · intro e hm
    simp [client.RetrievalBlockstoreAccessor, hm]
  · intro hm
    constructor
    · simp only [client.NewClientGraphsyncDataTransfer, hm]
      cases NewDataTransfer _ <;> simp
    · intro hn
      simp [client.NewClientGraphsyncDataTransfer, hm, hn]
  · intro e hm he
    simp [client.NewClientGraphsyncDataTransfer, hm, he]

/-- Witness of C3: under `/home/u`, where every directory can be created,
each constructor creates its directory with mode 493 (octal 755), builds its
component on it and returns it; under `/ro` the import manager is not built. -/
theorem home_layout_created_0755_witness :
    ((client.NewClientImportMgr sample.os "imports-ds" "/home/u").calls =
        [client.DirCall.MkdirAll "/home/u/imports" 493,
          client.DirCall.NewManager "/home/u/imports"] ∧
      (client.NewClientImportMgr sample.os "imports-ds" "/home/u").val =
        some ⟨"imports-ds", "/home/u/imports"⟩) ∧
    ((client.RetrievalBlockstoreAccessor sample.os "/home/u").calls =
        [client.DirCall.MkdirAll "/home/u/retrievals" 493,
          client.DirCall.NewCARBlockstoreAccessor "/home/u/retrievals"] ∧
      (client.RetrievalBlockstoreAccessor sample.os "/home/u").val =
        some ⟨"/home/u/retrievals"⟩) ∧
    ((client.NewClientGraphsyncDataTransfer sample.os (fun _ => none) ⟨[]⟩
        sample.host "gs" "transfer-ds" "/home/u").1.calls =
        [client.DirCall.MkdirAll "/home/u/data-transfer" 493,
          client.DirCall.NewDataTransfer "/home/u/data-transfer"] ∧
      (client.NewClientGraphsyncDataTransfer sample.os (fun _ => none) ⟨[]⟩
        sample.host "gs" "transfer-ds" "/home/u").1.val =
        some ⟨"transfer-ds", "/home/u/data-transfer", ⟨"host", some client.dtRetryParams⟩,
          ⟨"12D3KooW", "gs"⟩, ⟨0, 0, 10000000000, 60000000000, 3⟩,
          ["client data transfer"]⟩) ∧
    ((client.NewClientImportMgr sample.os "imports-ds" "/ro").calls =
        [client.DirCall.MkdirAll "/ro/imports" 493] ∧
      (client.NewClientImportMgr sample.os "imports-ds" "/ro").val = none) :=
  ⟨⟨((home_layout_created_0755 sample.os "/home/u" "imports-ds" (fun _ => none) ⟨[]⟩
        sample.host "gs" "transfer-ds").2.1.1 (by decide)).1,
    ((home_layout_created_0755 sample.os "/home/u" "imports-ds" (fun _ => none) ⟨[]⟩
        sample.host "gs" "transfer-ds").2.1.1 (by decide)).2.1⟩,
   ⟨((home_layout_created_0755 sample.os "/home/u" "imports-ds" (fun _ => none) ⟨[]⟩
        sample.host "gs" "transfer-ds").2.2.1.1 (by decide)).1,
    ((home_layout_created_0755 sample.os "/home/u" "imports-ds" (fun _ => none) ⟨[]⟩
        sample.host "gs" "transfer-ds").2.2.1.1 (by decide)).2.1⟩,
   ⟨((home_layout_created_0755 sample.os "/home/u" "imports-ds" (fun _ => none) ⟨[]⟩
        sample.host "gs" "transfer-ds").2.2.2.1 (by decide)).1,
    (((home_layout_created_0755 sample.os "/home/u" "imports-ds" (fun _ => none) ⟨[]⟩
        sample.host "gs" "transfer-ds").2.2.2.1 (by decide)).2 rfl).1⟩,
   ⟨((home_layout_created_0755 sample.os "/ro" "imports-ds" (fun _ => none) ⟨[]⟩
        sample.host "gs" "transfer-ds").2.1.2
          (GoError.foreign "mkdir: permission denied" false) (by decide)).1,
    ((home_layout_created_0755 sample.os "/ro" "imports-ds" (fun _ => none) ⟨[]⟩
        sample.host "gs" "transfer-ds").2.1.2
          (GoError.foreign "mkdir: permission denied" false) (by decide)).2⟩⟩

/-- C9: `NewClientGraphsyncDataTransfer` gives up on the directory exactly
when creating `<home>/data-transfer` fails with an error that is not an
already-exists error: then, and only then, `NewDataTransfer` is not called,
and the creation error itself is returned with no manager and the lifecycle
untouched. An already-exists failure is ignored: the result is the one of a
run in which the creation succeeded, on the same path. `NewClientImportMgr`
and `RetrievalBlockstoreAccessor` return no component and an error for every
creation error, the already-exists ones included. -/
theorem data_transfer_ignores_already_exists (os : client.OS)
    (NewDataTransfer : client.DataTransfer → Option GoError) (lc : Lifecycle)
    (host : client.Host) (gs dtDs ns : client.Handle) (home : String) :
    (client.DirCall.NewDataTransfer (os.Join home "data-transfer") ∉
        (client.NewClientGraphsyncDataTransfer os NewDataTransfer lc host gs dtDs home).1.calls
      ↔ ∃ e, os.MkdirAll (os.Join home "data-transfer") 0o755 = some e ∧ e.IsExist = false) ∧
    (∀ e, os.MkdirAll (os.Join home "data-transfer") 0o755 = some e → e.IsExist = false →
      (client.NewClientGraphsyncDataTransfer os NewDataTransfer lc host gs dtDs home).1.val
        = none ∧
      (client.NewClientGraphsyncDataTransfer os NewDataTransfer lc host gs dtDs home).1.err
        = some e ∧
      (client.NewClientGraphsyncDataTransfer os NewDataTransfer lc host gs dtDs home).2 = lc) ∧
    (∀ e, os.MkdirAll (os.Join home "data-transfer") 0o755 = some e → e.IsExist = true →
      client.NewClientGraphsyncDataTransfer os NewDataTransfer lc host gs dtDs home =
        client.NewClientGraphsyncDataTransfer ⟨os.Join, fun _ _ => none⟩ NewDataTransfer lc
          host gs dtDs home ∧
      client.DirCall.NewDataTransfer (os.Join home "data-transfer") ∈
        (client.NewClientGraphsyncDataTransfer os NewDataTransfer lc host gs dtDs home).1.calls) ∧
    (∀ e, os.MkdirAll (os.Join home "imports") 0o755 = some e →
      (client.NewClientImportMgr os ns home).val = none ∧
      (client.NewClientImportMgr os ns home).err ≠ none) ∧
    (∀ e, os.MkdirAll (os.Join home "retrievals") 0o755 = some e →
      (client.RetrievalBlockstoreAccessor os home).val = none ∧
      (client.RetrievalBlockstoreAccessor os home).err ≠ none) := by
  refine ⟨?_, ?_, ?_, ?_, ?_⟩
  · cases hm : os.MkdirAll (os.Join home "data-transfer") 0o755 with
    | none =>
      simp only [client.NewClientGraphsyncDataTransfer, hm]
      cases NewDataTransfer _ <;> simp
    | some e =>
      cases he : e.IsExist
      · simp [client.NewClientGraphsyncDataTransfer, hm, he]
      · simp only [client.NewClientGraphsyncDataTransfer, hm, he]
        cases NewDataTransfer _ <;> simp [he]
  · intro e hm he
    simp [client.NewClientGraphsyncDataTransfer, hm, he]
  · intro e hm he
    constructor
    · simp only [client.NewClientGraphsyncDataTransfer, hm, he]
      rfl
    · simp only [client.NewClientGraphsyncDataTransfer, hm, he]
      cases NewDataTransfer _ <;> simp
  · intro e hm
    simp [client.NewClientImportMgr, hm]
  · intro e hm
    simp [client.RetrievalBlockstoreAccessor, hm]

/-- Witness of C9: under `/ro` the data-transfer constructor returns the
permission error; under `/busy`, where the creation reports that the file
exists, it goes on and returns a manager on `/busy/data-transfer`, while
the import manager and the retrieval accessor give up on the same report. -/
theorem data_transfer_ignores_already_exists_witness :
    (client.NewClientGraphsyncDataTransfer sample.os (fun _ => none) ⟨[]⟩ sample.host
        "gs" "transfer-ds" "/ro").1.err
      = some (GoError.foreign "mkdir: permission denied" false) ∧
    client.DirCall.NewDataTransfer "/busy/data-transfer" ∈
      (client.NewClientGraphsyncDataTransfer sample.os (fun _ => none) ⟨[]⟩ sample.host
        "gs" "transfer-ds" "/busy").1.calls ∧
    (client.NewClientImportMgr sample.os "imports-ds" "/busy").val = none ∧
    (client.RetrievalBlockstoreAccessor sample.os "/busy").val = none :=
  ⟨((data_transfer_ignores_already_exists sample.os (fun _ => none) ⟨[]⟩ sample.host
      "gs" "transfer-ds" "imports-ds" "/ro").2.1 _ (by decide) (by decide)).2.1,
   ((data_transfer_ignores_already_exists sample.os (fun _ => none) ⟨[]⟩ sample.host
      "gs" "transfer-ds" "imports-ds" "/busy").2.2.1
        (GoError.foreign "mkdir: file exists" true) (by decide) (by decide)).2,
   ((data_transfer_ignores_already_exists sample.os (fun _ => none) ⟨[]⟩ sample.host
      "gs" "transfer-ds" "imports-ds" "/busy").2.2.2.1
        (GoError.foreign "mkdir: file exists" true) (by decide)).1,
   ((data_transfer_ignores_already_exists sample.os (fun _ => none) ⟨[]⟩ sample.host
      "gs" "transfer-ds" "imports-ds" "/busy").2.2.2.2
        (GoError.foreign "mkdir: file exists" true) (by decide)).1⟩

/-- C8: construction is atomic with respect to the lifecycle. For each of
`NewProviderPieceStore`, `NewLocalDiscovery`, `NewClientGraphsyncDataTransfer`,
`StorageClient` and `RetrievalClient`: when the error returned is non-nil the
lifecycle is what it was before the call, and when it is nil the hooks are the
hooks from before with exactly one hook appended at the end. -/
theorem constructors_append_one_hook_or_none (σ CDT PR BA : Type)
    (lc : Lifecycle)
    (failure : Option GoError) (mds : datastore.Datastore σ)
    (NewLocal : client.Handle → Option GoError) (ds : client.Handle)
    (os : client.OS) (NewDataTransfer : client.DataTransfer → Option GoError)
    (h : client.Host) (gs dtDs : client.Handle) (homeDir : String)
    (NewStorageClient : client.StorageClientImpl CDT BA → Option GoError)
    (dataTransfer : CDT) (discovery : client.Local) (deals scn : client.Handle)
    (accessor : BA) (j : client.Handle)
    (NewRetrievalClient : client.RetrievalClientImpl CDT PR BA → Option GoError)
    (payAPI : client.Handle) (resolver : PR) (rds fullApi : client.Handle) :
    (((piece.NewProviderPieceStore failure lc mds).1.2 ≠ none →
        (piece.NewProviderPieceStore failure lc mds).2 = lc) ∧
      ((piece.NewProviderPieceStore failure lc mds).1.2 = none →
        ∃ hook, (piece.NewProviderPieceStore failure lc mds).2.hooks = lc.hooks ++ [hook])) ∧
    (((client.NewLocalDiscovery NewLocal lc ds).1.2 ≠ none →
        (client.NewLocalDiscovery NewLocal lc ds).2 = lc) ∧
      ((client.NewLocalDiscovery NewLocal lc ds).1.2 = none →
        ∃ hook, (client.NewLocalDiscovery NewLocal lc ds).2.hooks = lc.hooks ++ [hook])) ∧
    (((client.NewClientGraphsyncDataTransfer os NewDataTransfer lc h gs dtDs homeDir).1.err
          ≠ none →
        (client.NewClientGraphsyncDataTransfer os NewDataTransfer lc h gs dtDs homeDir).2
          = lc) ∧
      ((client.NewClientGraphsyncDataTransfer os NewDataTransfer lc h gs dtDs homeDir).1.err
          = none →
        ∃ hook,
          (client.NewClientGraphsyncDataTransfer os NewDataTransfer lc h gs dtDs homeDir).2.hooks
            = lc.hooks ++ [hook])) ∧
    (((client.StorageClient NewStorageClient lc h dataTransfer discovery deals scn
          accessor j).1.2 ≠ none →
        (client.StorageClient NewStorageClient lc h dataTransfer discovery deals scn
          accessor j).2 = lc) ∧
      ((client.StorageClient NewStorageClient lc h dataTransfer discovery deals scn
          accessor j).1.2 = none →
        ∃ hook, (client.StorageClient NewStorageClient lc h dataTransfer discovery deals scn
          accessor j).2.hooks = lc.hooks ++ [hook])) ∧
    (((client.RetrievalClient NewRetrievalClient lc h dataTransfer payAPI resolver rds
          fullApi accessor j).1.2 ≠ none →
        (client.RetrievalClient NewRetrievalClient lc h dataTransfer payAPI resolver rds
          fullApi accessor j).2 = lc) ∧
      ((client.RetrievalClient NewRetrievalClient lc h dataTransfer payAPI resolver rds
          fullApi accessor j).1.2 = none →
        ∃ hook, (client.RetrievalClient NewRetrievalClient lc h dataTransfer payAPI resolver
          rds fullApi accessor j).2.hooks = lc.hooks ++ [hook])) := by
  refine ⟨?_, ?_, ?_, ?_, ?_⟩
  · cases failure <;>
      simp [piece.NewProviderPieceStore, piece.NewDsPieceStore, Lifecycle.Append]
  · cases hn : NewLocal ds <;> simp [client.NewLocalDiscovery, hn, Lifecycle.Append]
  · unfold client.NewClientGraphsyncDataTransfer
    simp only []
    split
    · rename_i hc
      cases hm : os.MkdirAll (os.Join homeDir "data-transfer") 0o755 with
      | none => simp [hm] at hc
      | some e => simp
    · split <;> simp [Lifecycle.Append]
  · cases hn : NewStorageClient
        ⟨⟨h.name, some client.marketsRetryParams⟩, dataTransfer, discovery, deals, scn,
          accessor, time.Second, []⟩ <;>
      simp [client.StorageClient, hn, Lifecycle.Append]
  · cases hn : NewRetrievalClient
        ⟨⟨h.name, none⟩, dataTransfer, ⟨payAPI, fullApi⟩, resolver, rds, accessor, []⟩ <;>
      simp [client.RetrievalClient, hn, Lifecycle.Append]

/-- Witness of C8: on a lifecycle that holds one hook, a failing storage client
leaves that one hook, a successful discovery makes it two, the new one last. -/
theorem constructors_append_one_hook_or_none_witness :
    (client.StorageClient
        (fun _ => some (GoError.errorf "no client")) ⟨[⟨none, none⟩]⟩ sample.host "dt"
        ⟨"deals", []⟩ "deals-ds" "node" "accessor" "journal").2 = ⟨[⟨none, none⟩]⟩ ∧
    ∃ hook, (client.NewLocalDiscovery (fun _ => none) ⟨[⟨none, none⟩]⟩ "deals").2.hooks =
      [⟨none, none⟩] ++ [hook] :=
  ⟨(constructors_append_one_hook_or_none datastore.MapStore String String String
      ⟨[⟨none, none⟩]⟩ none datastore.MetadataDS (fun _ => none) "deals" sample.os
      (fun _ => none) sample.host "gs" "transfer-ds" "/home/u"
      (fun _ => some (GoError.errorf "no client")) "dt" ⟨"deals", []⟩ "deals-ds" "node"
      "accessor" "journal" (fun _ => none) "paych" "resolver" "retrieval-ds"
      "full").2.2.2.1.1 (by decide),
   (constructors_append_one_hook_or_none datastore.MapStore String String String
      ⟨[⟨none, none⟩]⟩ none datastore.MetadataDS (fun _ => none) "deals" sample.os
      (fun _ => none) sample.host "gs" "transfer-ds" "/home/u"
      (fun _ => some (GoError.errorf "no client")) "dt" ⟨"deals", []⟩ "deals-ds" "node"
      "accessor" "journal" (fun _ => none) "paych" "resolver" "retrieval-ds"
      "full").2.1.2 (by decide)⟩

/-- A program run on a handle wrapped under `pfx` only appends to the access
log of the physical store, one access per key asked for and at the key `pfx`
followed by it, and leaves the content at every other key as it was. -/
theorem wrapped_run_scoped (pfx : datastore.Key) (α : Type) (op : datastore.Prog α)
    (s : datastore.MapStore) :
    ∃ acc : List datastore.Access,
      (op.run (namespace_.Wrap datastore.MetadataDS pfx) s).2.2.log = s.log ++ acc ∧
      acc.map datastore.Access.key =
        (op.run (namespace_.Wrap datastore.MetadataDS pfx) s).2.1.map
          (fun k => pfx.string ++ k.string) ∧
      ∀ x : String, (∀ k : String, x ≠ pfx.string ++ k) →
        (op.run (namespace_.Wrap datastore.MetadataDS pfx) s).2.2.data x = s.data x := by
  induction op generalizing s with
  | ret a => exact ⟨[], by simp [datastore.Prog.run], by simp [datastore.Prog.run],
      fun _ _ => rfl⟩
  | Get k cont ih =>
    obtain ⟨acc, h1, h2, h3⟩ := ih
      ((namespace_.Wrap datastore.MetadataDS pfx).Get k s).1
      ((namespace_.Wrap datastore.MetadataDS pfx).Get k s).2
    refine ⟨datastore.Access.read (pfx.string ++ k.string) :: acc, ?_, ?_, ?_⟩
    · simp only [datastore.Prog.run]
      rw [h1]
      simp [namespace_.Wrap, datastore.MetadataDS, datastore.Key.Child]
    · simp only [datastore.Prog.run, List.map_cons, datastore.Access.key]
      rw [h2]
    · intro x hx
      simp only [datastore.Prog.run]
      rw [h3 x hx]
      simp [namespace_.Wrap, datastore.MetadataDS]
  | Has k cont ih =>
    obtain ⟨acc, h1, h2, h3⟩ := ih
      ((namespace_.Wrap datastore.MetadataDS pfx).Has k s).1
      ((namespace_.Wrap datastore.MetadataDS pfx).Has k s).2
    refine ⟨datastore.Access.read (pfx.string ++ k.string) :: acc, ?_, ?_, ?_⟩
    · simp only [datastore.Prog.run]
      rw [h1]
      simp [namespace_.Wrap, datastore.MetadataDS, datastore.Key.Child]
    · simp only [datastore.Prog.run, List.map_cons, datastore.Access.key]
      rw [h2]
    · intro x hx
      simp only [datastore.Prog.run]
      rw [h3 x hx]
      simp [namespace_.Wrap, datastore.MetadataDS]
  | GetSize k cont ih =>
    obtain ⟨acc, h1, h2, h3⟩ := ih
      ((namespace_.Wrap datastore.MetadataDS pfx).GetSize k s).1
      ((namespace_.Wrap datastore.MetadataDS pfx).GetSize k s).2
    refine ⟨datastore.Access.read (pfx.string ++ k.string) :: acc, ?_, ?_, ?_⟩
    · simp only [datastore.Prog.run]
      rw [h1]
      simp [namespace_.Wrap, datastore.MetadataDS, datastore.Key.Child]
    · simp only [datastore.Prog.run, List.map_cons, datastore.Access.key]
      rw [h2]
    · intro x hx
      simp only [datastore.Prog.run]
      rw [h3 x hx]
      simp [namespace_.Wrap, datastore.MetadataDS]
  | Put k v cont ih =>
    obtain ⟨acc, h1, h2, h3⟩ := ih ((namespace_.Wrap datastore.MetadataDS pfx).Put k v s)
    refine ⟨datastore.Access.write (pfx.string ++ k.string) :: acc, ?_, ?_, ?_⟩
    · simp only [datastore.Prog.run]
      rw [h1]
      simp [namespace_.Wrap, datastore.MetadataDS, datastore.Key.Child]
    · simp only [datastore.Prog.run, List.map_cons, datastore.Access.key]
      rw [h2]
    · intro x hx
      simp only [datastore.Prog.run]
      rw [h3 x hx]
      simp [namespace_.Wrap, datastore.MetadataDS, datastore.Key.Child, hx k.string]
  | Delete k cont ih =>
    obtain ⟨acc, h1, h2, h3⟩ := ih ((namespace_.Wrap datastore.MetadataDS pfx).Delete k s)
    refine ⟨datastore.Access.write (pfx.string ++ k.string) :: acc, ?_, ?_, ?_⟩
    · simp only [datastore.Prog.run]
      rw [h1]
      simp [namespace_.Wrap, datastore.MetadataDS, datastore.Key.Child]
    · simp only [datastore.Prog.run, List.map_cons, datastore.Access.key]
      rw [h2]
    · intro x hx
      simp only [datastore.Prog.run]
      rw [h3 x hx]
      simp [namespace_.Wrap, datastore.MetadataDS, datastore.Key.Child, hx k.string]

/-- C4: the piece metadata index is scoped under the fixed key prefix
`/storagemarket`. For the piece store `ps` that `NewProviderPieceStore` builds
on the shared physical store, every operation only appends accesses to the
store, one per key `k` the piece store reads or writes and at the key
`/storagemarket` followed by `k`; a key that is not `/storagemarket` followed
by something is neither accessed nor changed. `PieceOpts` binds the piece
store with the comment that it saves to `/storagemarket`. -/
theorem piece_store_scoped_under_storagemarket (failure : Option GoError)
    (lc lc2 : Lifecycle) (ps : piece.DsPieceStore datastore.MapStore)
    (h : piece.NewProviderPieceStore failure lc datastore.MetadataDS = ((some ps, none), lc2))
    (α : Type) (op : datastore.Prog α) (s : datastore.MapStore) :
    (∃ acc : List datastore.Access,
      (ps.exec op s).2.2.log = s.log ++ acc ∧
      acc.map datastore.Access.key =
        (ps.exec op s).2.1.map (fun k => "/storagemarket" ++ k.string) ∧
      ∀ x : String, (∀ k : String, x ≠ "/storagemarket" ++ k) →
        (ps.exec op s).2.2.data x = s.data x ∧ ∀ a ∈ acc, a.key ≠ x) ∧
    (⟨"piecestore.PieceStore", "builder.From(new(ExtendPieceStore))",
      "save piece metadata(location)   save to metadata /storagemarket"⟩ : Override)
        ∈ piece.PieceOpts := by
  have hps : ps = ⟨namespace_.Wrap datastore.MetadataDS (datastore.NewKey "/storagemarket"),
      ["piecestore"]⟩ := by
    cases failure with
    | some e => simp [piece.NewProviderPieceStore, piece.NewDsPieceStore] at h
    | none =>
      simp [piece.NewProviderPieceStore, piece.NewDsPieceStore, piece.DsPieceStore.OnReady] at h
      exact h.1.symm
  subst hps
  refine ⟨?_, by simp [piece.PieceOpts]⟩
  obtain ⟨acc, h1, h2, h3⟩ := wrapped_run_scoped (datastore.NewKey "/storagemarket") α op s
  refine ⟨acc, h1, h2, fun x hx => ⟨h3 x hx, ?_⟩⟩
  intro a ha hax
  have hmem : a.key ∈ acc.map datastore.Access.key := List.mem_map_of_mem _ ha
  rw [h2] at hmem
  obtain ⟨k, _, hk⟩ := List.mem_map.mp hmem
  exact hx k.string (by rw [← hax, ← hk]; rfl)

/-- Witness of C4: writing and reading back the record of piece `Qm123`
through the piece store touches `/storagemarket/pieces/Qm123` twice and leaves
the record at `/deals/1`, which belongs to another subsystem, as it was. -/
theorem piece_store_scoped_under_storagemarket_witness :
    (∃ acc : List datastore.Access,
      ((⟨namespace_.Wrap datastore.MetadataDS ⟨"/storagemarket"⟩, ["piecestore"]⟩ :
          piece.DsPieceStore datastore.MapStore).exec sample.putThenGet sample.sharedStore).2.2.log
        = [] ++ acc ∧
      acc.map datastore.Access.key =
        ["/storagemarket/pieces/Qm123", "/storagemarket/pieces/Qm123"]) ∧
    ((⟨namespace_.Wrap datastore.MetadataDS ⟨"/storagemarket"⟩, ["piecestore"]⟩ :
        piece.DsPieceStore datastore.MapStore).exec sample.putThenGet sample.sharedStore).2.2.data
      "/deals/1" = some [1] := by
  obtain ⟨⟨acc, h1, h2, h3⟩, _⟩ :=
    piece_store_scoped_under_storagemarket none ⟨[]⟩ _ _ rfl _ sample.putThenGet
      sample.sharedStore
  refine ⟨⟨acc, h1, by rw [h2]; decide⟩, ?_⟩
  have hout : ∀ k : String, "/deals/1" ≠ "/storagemarket" ++ k := by
    intro k hk
    have hd := congrArg String.data hk
    simp at hd
  exact (h3 "/deals/1" hout).1.trans (by decide)

end VenusMarket
